import Mathlib

/-!
Verification of the daemon-supervision core of pytest-salt
(src/pytestsalt/fixtures/daemons.py), as a shallow embedding.

The embedding covers:
 - the Python-value model used by parsed JSON payloads and `ShellResult`
   equality (`ShellResult.__eq__`);
 - the readiness prober `SaltDaemonScriptBase._wait_until_running` and its
   wrapper `wait_until_running`, over an explicit daemon state
   (the `_running` and `_connectable` events plus subprocess liveness);
 - the fixture retry loop shared verbatim by the `salt_master`,
   `salt_minion`, `sshd_server` fixtures and their session variants;
 - the argument-vector builders (`get_base_script_args`, `get_script_args`)
   of the daemon and one-shot CLI classes;
 - the terminal shutdown sequence `close_terminal` and the descendant
   reaper `terminate_child_processes`, abstracted over OS-error outcomes.
-/

/-- Model of the Python values that can appear as a parsed JSON payload
(result of json.loads) or as the right-hand side of a comparison with a
ShellResult. Python None is the `none` constructor. -/
inductive PyObj where
  | none
  | bool (b : Bool)
  | int (n : Int)
  | str (s : String)
  | list (elems : List PyObj)
  | dict (entries : List (String × PyObj))

/-- Python truthiness (bool(x)) on the modelled values: None, False, 0,
empty string, empty list and empty dict are falsy, everything else truthy.
This is the test performed by the source line `if self.json:`. -/
def pyTruthy : PyObj → Bool
  | .none => false
  | .bool b => b
  | .int n => n != 0
  | .str s => s != ""
  | .list xs => !xs.isEmpty
  | .dict xs => !xs.isEmpty

mutual

/-- Python equality (the == operator) on the modelled values, structural:
two values are equal when they have the same constructor and equal
components. -/
def pyEq : PyObj → PyObj → Bool
  | .none, .none => true
  | .bool a, .bool c => a == c
  | .int a, .int c => a == c
  | .str a, .str c => a == c
  | .list xs, .list ys => pyEqList xs ys
  | .dict xs, .dict ys => pyEqDict xs ys
  | _, _ => false

/-- Elementwise Python equality of two lists of values. -/
def pyEqList : List PyObj → List PyObj → Bool
  | [], [] => true
  | x :: xs, y :: ys => pyEq x y && pyEqList xs ys
  | _, _ => false

/-- Entrywise Python equality of two dicts (modelled as ordered
association lists). -/
def pyEqDict : List (String × PyObj) → List (String × PyObj) → Bool
  | [], [] => true
  | (k, v) :: xs, (l, w) :: ys => k == l && pyEq v w && pyEqDict xs ys
  | _, _ => false

end

/-- Python membership (the in operator) as used by the readiness prober on
the parsed manage.joined payload: list membership, dict key membership, or
substring containment when the payload is itself a string. -/
def pyIn (x : PyObj) (c : PyObj) : Bool :=
  match c with
  | .list xs => xs.any (fun y => pyEq x y)
  | .dict xs =>
      match x with
      | .str s => xs.any (fun kv => kv.1 == s)
      | _ => false
  | .str hay =>
      match x with
      | .str needle => needle == "" || (hay.splitOn needle).length > 1
      | _ => false
  | _ => false

/-- Embedding of the ShellResult namedtuple: exit code, raw stdout, raw
stderr, and the parsed JSON payload (PyObj.none when parsing failed or
stdout was empty). -/
structure ShellResult where
  exitcode : Int
  stdout : String
  stderr : String
  json : PyObj

/-- Embedding of ShellResult.__eq__: compare against the parsed JSON
payload when it is truthy (the source tests `if self.json:`), otherwise
against the raw stdout string. -/
def ShellResult.eq (r : ShellResult) (other : PyObj) : Bool :=
  if pyTruthy r.json then pyEq r.json other else pyEq (PyObj.str r.stdout) other

/-- Statement of claim C2 exactly as the spec words it: the comparison is
said to use the parsed payload whenever that payload is PRESENT (not the
absent marker None), and raw stdout otherwise. -/
def ShellResult.eqSpec (r : ShellResult) (other : PyObj) : Bool :=
  match r.json with
  | PyObj.none => pyEq (PyObj.str r.stdout) other
  | j => pyEq j other

/-- Declared readiness check of a daemon (get_check_ports entries): either
a TCP port number or a minion id (a string), as distinguished by the
isinstance tests in the prober. -/
inductive Check where
  | port (p : Nat)
  | peer (minionId : String)
deriving DecidableEq, Repr

/-- State of one supervised daemon handle: the `_running` multiprocessing
event (liveness flag read by is_alive), the `_connectable` event
(readiness flag), and whether the underlying OS subprocess is still
actually running. -/
structure DaemonState where
  running : Bool
  connectable : Bool
  procAlive : Bool
deriving DecidableEq, Repr

/-- Embedding of SaltDaemonScriptBase.start: the `_running` event is set
unconditionally before the watcher process is spawned; the `_connectable`
event is not touched; a fresh subprocess is alive. -/
def DaemonState.start (s : DaemonState) : DaemonState :=
  ⟨true, s.connectable, true⟩

/-- Exit of the underlying OS subprocess: the watcher loop in `_start`
merely stops consuming output and closes the terminal; neither the
`_running` nor the `_connectable` event is touched. -/
def DaemonState.procExit (s : DaemonState) : DaemonState :=
  ⟨s.running, s.connectable, false⟩

/-- Embedding of SaltDaemonScriptBase.terminate: clears `_running`, clears
`_connectable`, and terminates the subprocess tree. -/
def DaemonState.terminate (_s : DaemonState) : DaemonState :=
  ⟨false, false, false⟩

/-- Embedding of SaltDaemonScriptBase.is_alive: returns the `_running`
event state, not the OS-level status of the subprocess. -/
def DaemonState.is_alive (s : DaemonState) : Bool :=
  s.running

/-- Environment the readiness prober polls: for each polling cycle, which
ports accept a TCP connection; whether a salt_run collaborator was
provided; and the ShellResult of the manage.joined query on each cycle. -/
structure ProbeEnv where
  portOpen : Nat → Nat → Bool
  hasSaltRun : Bool
  peersJoined : Nat → ShellResult

/-- Probe of one pending check during one cycle, from the body of the
for-loop in `_wait_until_running`: a port check succeeds when the TCP
connect succeeds; a peer check without a salt_run collaborator raises
RuntimeError; otherwise the manage.joined query must exit 0, return a
truthy parsed payload, and list the minion id. -/
def checkSatisfied (env : ProbeEnv) (cycle : Nat) : Check → Except Unit Bool
  | .port p => .ok (env.portOpen cycle p)
  | .peer minionId =>
      if env.hasSaltRun then
        let r := env.peersJoined cycle
        .ok (r.exitcode == 0 && pyTruthy r.json && pyIn (PyObj.str minionId) r.json)
      else .error ()

/-- One full pass of the prober over the pending check list (the for-loop
of `_wait_until_running`): satisfied checks are removed, unsatisfied ones
stay pending, and a RuntimeError from a peer check propagates. -/
def runChecks (env : ProbeEnv) (cycle : Nat) : List Check → Except Unit (List Check)
  | [] => .ok []
  | c :: rest =>
      match checkSatisfied env cycle c with
      | .error e => .error e
      | .ok sat =>
          match runChecks env cycle rest with
          | .error e => .error e
          | .ok rest2 => .ok (if sat then rest2 else c :: rest2)

/-- Outcome of the prober coroutine `_wait_until_running` under the
external run_sync timeout: the timeout cancelled it, or it finished with
the final value of the `_connectable` event and the resulting daemon
state, or it raised. -/
inductive ProbeOutcome where
  | timedOut
  | finished (res : Bool) (s : DaemonState)
  | raised (s : DaemonState)
deriving DecidableEq, Repr

/-- Embedding of the polling loop of `_wait_until_running`. Each
iteration first tests the `_running` event (exiting with the current
`_connectable` value when it is clear), then declares readiness
immediately when the pending set is empty, and otherwise performs one
pass over the pending checks followed by the 0.5 second sleep. `fuel` is
the number of polling cycles the external timeout still allows: running
out of fuel before readiness is the run_sync timeout. -/
def waitLoop (env : ProbeEnv) (fuel : Nat) (cycle : Nat) (s : DaemonState)
    (pending : List Check) : ProbeOutcome :=
  if s.running = false then .finished s.connectable s
  else if pending.isEmpty then .finished true ⟨s.running, true, s.procAlive⟩
  else
    match fuel with
    | 0 => .timedOut
    | n + 1 =>
        match runChecks env cycle pending with
        | .error _ => .raised s
        | .ok pending2 => waitLoop env n (cycle + 1) s pending2

/-- Embedding of SaltDaemonScriptBase.wait_until_running: an already-set
`_connectable` event returns True at once; otherwise the prober coroutine
runs under the timeout, a run_sync TimeoutError is caught and reported as
False with the daemon state untouched, and any other exception
propagates. -/
def wait_until_running (env : ProbeEnv) (fuel : Nat) (s : DaemonState)
    (pending : List Check) : Except Unit (Bool × DaemonState) :=
  if s.connectable then .ok (true, s)
  else
    match waitLoop env fuel 0 s pending with
    | .timedOut => .ok (false, s)
    | .finished b s2 => .ok (b, s2)
    | .raised _ => .error ()

/-- States of a daemon handle reachable through the operations the
fixtures perform: construction (both events clear, no subprocess), start,
subprocess exit, terminate, and a completed wait_until_running call. -/
inductive Reachable : DaemonState → Prop where
  | init : Reachable ⟨false, false, false⟩
  | start {s : DaemonState} : Reachable s → Reachable s.start
  | procExit {s : DaemonState} : Reachable s → Reachable s.procExit
  | terminate {s : DaemonState} : Reachable s → Reachable s.terminate
  | wait {env : ProbeEnv} {fuel : Nat} {pending : List Check}
      {s : DaemonState} {b : Bool} {s2 : DaemonState} :
      Reachable s → wait_until_running env fuel s pending = .ok (b, s2) →
      Reachable s2

/-- Outcome of one attempt of the fixture retry loop, abstracting the
branches of the loop body: the is_alive check returned False; the daemon
was alive but both wait_until_running calls (10 s then 5 s) returned
False; a wait raised an exception; or a wait returned True, reaching the
yield. -/
inductive AttemptOutcome where
  | notAlive
  | notConnectable
  | waitRaises
  | ready
deriving DecidableEq, Repr

/-- Result of the fixture retry loop: the handle was yielded at a given
attempt; pytest.xfail was raised after a failed running-status
confirmation; pytest.xfail was raised after a wait exception; or the
while-else xfail fired when the loop condition became false (its message
reports attempts minus one). In no xfail case does the caller receive a
handle. -/
inductive FixtureResult where
  | yielded (attempt : Nat)
  | xfailConfirm (attempt : Nat)
  | xfailRaised (attempt : Nat)
  | xfailStart (attempts : Nat)
deriving DecidableEq, Repr

/-- Embedding of the fixture retry loop shared verbatim (up to the daemon
class) by salt_master, salt_minion, sshd_server and their session
variants: `attempts = 0; while attempts <= 3: attempts += 1; ...`. Each
iteration constructs and starts a fresh process, checks is_alive, runs
wait_until_running twice on a negative first result, terminates and
retries on failure, xfails when attempts >= 3 inside the failure
branches, yields on success, and the while-else xfails when the loop
condition becomes false. The behaviour of attempt number n is given by
the oracle `b n`. -/
def fixtureLoopAux (b : Nat → AttemptOutcome) (attempts : Nat) : FixtureResult :=
  if _h : attempts ≤ 3 then
    match b (attempts + 1) with
    | .ready => .yielded (attempts + 1)
    | .notAlive => fixtureLoopAux b (attempts + 1)
    | .notConnectable =>
        if attempts + 1 ≥ 3 then .xfailConfirm (attempts + 1)
        else fixtureLoopAux b (attempts + 1)
    | .waitRaises =>
        if attempts + 1 ≥ 3 then .xfailRaised (attempts + 1)
        else fixtureLoopAux b (attempts + 1)
  else .xfailStart attempts
termination_by 4 - attempts

/-- Fixture retry loop entered with attempts = 0, as every daemon fixture
does. -/
def daemonFixtureLoop (b : Nat → AttemptOutcome) : FixtureResult :=
  fixtureLoopAux b 0

/-- Daemon classes spawned by the fixtures. -/
inductive DaemonClass where
  | master
  | minion
  | sshd
deriving DecidableEq, Repr

/-- Embedding of SaltScriptBase.get_base_script_args: the configuration
directory flag. -/
def SaltScriptBase.get_base_script_args (config_dir : String) : List String :=
  ["-c", config_dir]

/-- Base arguments of each daemon class: SaltMaster and SaltMinion
inherit SaltScriptBase.get_base_script_args, while SSHD overrides it with
`-D -f <config_dir>/sshd_config`. -/
def daemon_get_base_script_args : DaemonClass → String → List String
  | .master, config_dir => SaltScriptBase.get_base_script_args config_dir
  | .minion, config_dir => SaltScriptBase.get_base_script_args config_dir
  | .sshd, config_dir => ["-D", "-f", config_dir ++ "/sshd_config"]

/-- Extra arguments of each daemon class (get_script_args overrides). -/
def daemon_get_script_args : DaemonClass → List String
  | .master => ["-l", "quiet"]
  | .minion => ["--disable-keepalive", "-l", "quiet"]
  | .sshd => []

/-- Argument vector a daemon spawn passes to the OS, from `_start`:
script path, then get_base_script_args, then get_script_args. -/
def daemon_proc_args (c : DaemonClass) (script_path config_dir : String) :
    List String :=
  script_path :: (daemon_get_base_script_args c config_dir ++ daemon_get_script_args c)

/-- One-shot CLI classes (subclasses of SaltCliScriptBase). -/
inductive CliClass where
  | salt
  | saltCall
  | saltKey
  | saltRun
  | saltSSH
deriving DecidableEq, Repr

/-- Embedding of SaltCliScriptBase.get_base_script_args: the inherited
configuration directory flag plus the machine-readable output flag. -/
def SaltCliScriptBase.get_base_script_args (config_dir : String) : List String :=
  SaltScriptBase.get_base_script_args config_dir ++ ["--out=json"]

/-- Extra arguments of each one-shot CLI class (get_script_args
overrides; the SaltSSH roster file lives under the configuration
directory). -/
def cli_get_script_args : CliClass → String → List String
  | .salt, _ => []
  | .saltCall, _ => ["--retcode-passthrough"]
  | .saltKey, _ => []
  | .saltRun, _ => []
  | .saltSSH, config_dir =>
      ["-l", "trace", "-w", "--rand-thin-dir",
       "--roster-file=" ++ config_dir ++ "/roster",
       "--ignore-host-keys", "localhost"]

/-- Argument vector a one-shot CLI invocation passes to the OS, from
`_run_script`: script path, then get_base_script_args, then
get_script_args, then the per-call arguments. -/
def cli_proc_args (c : CliClass) (script_path config_dir : String)
    (callArgs : List String) : List String :=
  script_path ::
    (SaltCliScriptBase.get_base_script_args config_dir ++
     cli_get_script_args c config_dir ++ callArgs)

/-- Truth of "the argument vector contains `a` immediately followed by
`b`". -/
def hasArgPair (a b : String) : List String → Bool
  | [] => false
  | [_] => false
  | x :: y :: rest => (x == a && y == b) || hasArgPair a b (y :: rest)

/-- Result of one signalling call on the terminal subprocess: it
succeeded, or it raised OSError with the given errno. -/
inductive SigResult where
  | ok
  | oserr (e : Nat)
deriving DecidableEq, Repr

/-- POSIX errno for no-such-process. -/
def ESRCH : Nat := 3

/-- POSIX errno for permission-denied. -/
def EACCES : Nat := 13

/-- Embedding of the except-clause wrapped around each signalling call in
close_terminal: an OSError whose errno is ESRCH or EACCES is swallowed,
any other errno is re-raised. -/
def guardSignal (r : SigResult) : Except Nat Unit :=
  match r with
  | .ok => .ok ()
  | .oserr e => if e = ESRCH ∨ e = EACCES then .ok () else .error e

/-- Truth of "this signalling call did not propagate an error": it
succeeded or raised a swallowed errno. -/
def sigSwallowed (r : SigResult) : Bool :=
  match r with
  | .ok => true
  | .oserr e => decide (e = ESRCH ∨ e = EACCES)

/-- Behaviour of one terminal handle during close_terminal: whether
poll() reported the subprocess exited on entry, the outcome of
send_signal(SIGKILL), whether poll() reported it exited after the 5 s
wait loop, and the outcomes of kill() and terminate(). -/
structure TerminalBehavior where
  exitedAtEntry : Bool
  sendSignalResult : SigResult
  exitedAfterWait : Bool
  killResult : SigResult
  terminateResult : SigResult
deriving DecidableEq, Repr

/-- Embedding of close_terminal: when the subprocess has not exited,
send SIGKILL (errors filtered by guardSignal) and poll up to 5 seconds;
when it still has not exited, kill() (filtered); in every case,
terminate() (filtered) and a final communicate(). -/
def close_terminal (t : TerminalBehavior) : Except Nat Unit :=
  match (if t.exitedAtEntry = false then guardSignal t.sendSignalResult else .ok ()) with
  | .error e => .error e
  | .ok _ =>
      match (if (t.exitedAtEntry || t.exitedAfterWait) = false
             then guardSignal t.killResult else .ok ()) with
      | .error e => .error e
      | .ok _ => guardSignal t.terminateResult

/-- Behaviour of one descendant process during terminate_child_processes:
it was signalled and reaped normally; it had already exited, so some
psutil call on it raised NoSuchProcess; or signalling it raised
AccessDenied. -/
inductive ChildOutcome where
  | handled
  | gone
  | denied
deriving DecidableEq, Repr

/-- Embedding of the per-child loop of terminate_child_processes: the
loop iterates over a copy of the enumerated children; a child whose
handling raises NoSuchProcess is removed from the remaining-children list
and the loop continues; AccessDenied is not caught and propagates;
successfully handled children stay on the list passed to the final
wait_procs. Returns that remaining list (as pids). -/
def reapLoop : List (Nat × ChildOutcome) → Except Unit (List Nat)
  | [] => .ok []
  | (pid, ChildOutcome.handled) :: rest =>
      match reapLoop rest with
      | .error e => .error e
      | .ok r => .ok (pid :: r)
  | (_, ChildOutcome.gone) :: rest => reapLoop rest
  | (_, ChildOutcome.denied) :: _ => .error ()

/-- Embedding of terminate_child_processes: when enumerating the parent
raises NoSuchProcess the children list is empty, otherwise the per-child
loop runs over the enumerated children. -/
def terminate_child_processes (parentFound : Bool)
    (children : List (Nat × ChildOutcome)) : Except Unit (List Nat) :=
  if parentFound then reapLoop children else .ok []

theorem waitLoop_finished_state (env : ProbeEnv) (fuel : Nat) :
    ∀ (cycle : Nat) (s : DaemonState) (pending : List Check) (b : Bool) (s2 : DaemonState),
      waitLoop env fuel cycle s pending = ProbeOutcome.finished b s2 →
      s2 = s ∨ (s.running = true ∧ s2 = ⟨s.running, true, s.procAlive⟩) := by
  induction fuel with
  | zero =>
      intro cycle s pending b s2 h
      unfold waitLoop at h
      by_cases hr : s.running = false
      · rw [if_pos hr] at h
        injection h with h1 h2
        exact Or.inl h2.symm
      · rw [if_neg hr] at h
        by_cases hp : pending.isEmpty
        · rw [if_pos hp] at h
          injection h with h1 h2
          exact Or.inr ⟨Bool.not_eq_false _ |>.mp hr, h2.symm⟩
        · rw [if_neg hp] at h
          exact ProbeOutcome.noConfusion h
  | succ n ih =>
      intro cycle s pending b s2 h
      unfold waitLoop at h
      by_cases hr : s.running = false
      · rw [if_pos hr] at h
        injection h with h1 h2
        exact Or.inl h2.symm
      · rw [if_neg hr] at h
        by_cases hp : pending.isEmpty
        · rw [if_pos hp] at h
          injection h with h1 h2
          exact Or.inr ⟨Bool.not_eq_false _ |>.mp hr, h2.symm⟩
        · rw [if_neg hp] at h
          cases hrc : runChecks env cycle pending with
          | error e =>
              rw [hrc] at h
              exact ProbeOutcome.noConfusion h
          | ok p2 =>
              rw [hrc] at h
              exact ih (cycle + 1) s p2 b s2 h

theorem wait_until_running_state (env : ProbeEnv) (fuel : Nat) (s : DaemonState)
    (pending : List Check) (b : Bool) (s2 : DaemonState)
    (h : wait_until_running env fuel s pending = Except.ok (b, s2)) :
    s2 = s ∨ (s.running = true ∧ s2 = ⟨s.running, true, s.procAlive⟩) := by
  unfold wait_until_running at h
  by_cases hc : s.connectable = true
  · rw [if_pos hc] at h
    injection h with h1
    exact Or.inl (congrArg Prod.snd h1).symm
  · rw [if_neg hc] at h
    cases hw : waitLoop env fuel 0 s pending with
    | timedOut =>
        rw [hw] at h
        injection h with h1
        exact Or.inl (congrArg Prod.snd h1).symm
    | finished b2 s3 =>
        rw [hw] at h
        injection h with h1
        have hs3 : s3 = s2 := congrArg Prod.snd h1
        exact hs3 ▸ waitLoop_finished_state env fuel 0 s pending b2 s3 hw
    | raised s3 =>
        rw [hw] at h
        exact Except.noConfusion h

/-- Claim C2 fails as universally stated: the source compares against the
parsed payload only when the payload is TRUTHY, not whenever it is
present. For the result with stdout "ignored" and the present-but-empty
payload given by parsing "{}", comparing against the empty dict gives
false (stdout is used), while the claim as stated predicts true. -/
theorem shellresult_eq_present_payload_cex :
    ¬ (ShellResult.eq ⟨0, "ignored", "", PyObj.dict []⟩ (PyObj.dict []) =
       ShellResult.eqSpec ⟨0, "ignored", "", PyObj.dict []⟩ (PyObj.dict [])) := by
  decide

/-- Claim C2 (amended): comparing a ShellResult to a value compares
against the parsed payload when that payload is truthy (non-empty,
non-null, non-zero), and against raw stdout otherwise; in particular the
three concrete comparisons of the claim all hold as stated. -/
theorem shellresult_eq_truthy_payload :
    (∀ (r : ShellResult) (v : PyObj), pyTruthy r.json = true →
        ShellResult.eq r v = pyEq r.json v) ∧
    (∀ (r : ShellResult) (v : PyObj), pyTruthy r.json = false →
        ShellResult.eq r v = pyEq (PyObj.str r.stdout) v) ∧
    ShellResult.eq ⟨0, "OK", "", PyObj.none⟩ (PyObj.str "OK") = true ∧
    ShellResult.eq ⟨0, "ignored", "", PyObj.dict [("a", PyObj.int 1)]⟩
      (PyObj.dict [("a", PyObj.int 1)]) = true ∧
    ShellResult.eq ⟨0, "ignored", "", PyObj.dict [("a", PyObj.int 1)]⟩
      (PyObj.str "ignored") = false := by
  refine ⟨?_, ?_, by decide, by decide, by decide⟩
  · intro r v h
    simp [ShellResult.eq, h]
  · intro r v h
    simp [ShellResult.eq, h]

/-- Witness for the amended claim C2 at a concrete truthy payload. -/
theorem shellresult_eq_truthy_payload_witness :
    ShellResult.eq ⟨0, "ignored", "", PyObj.dict [("a", PyObj.int 1)]⟩ (PyObj.str "x") =
      pyEq (PyObj.dict [("a", PyObj.int 1)]) (PyObj.str "x") :=
  shellresult_eq_truthy_payload.1
    ⟨0, "ignored", "", PyObj.dict [("a", PyObj.int 1)]⟩ (PyObj.str "x") (by decide)

/-- Claim C4: when the prober is cancelled by the external run_sync
timeout, wait_until_running returns False as an ordinary result (not an
error) and the daemon state is untouched: the liveness flag is not
cleared and the subprocess is not killed, signalled or terminated
(termination happens only through the separate terminate call). -/
theorem wait_timeout_returns_false_keeps_state :
    ∀ (env : ProbeEnv) (fuel : Nat) (s : DaemonState) (pending : List Check),
      s.connectable = false →
      waitLoop env fuel 0 s pending = ProbeOutcome.timedOut →
      wait_until_running env fuel s pending = Except.ok (false, s) := by
  intro env fuel s pending hc hw
  unfold wait_until_running
  rw [if_neg (by simp [hc])]
  rw [hw]

/-- Witness for claim C4: a pending port check with zero cycles of budget
times out and reports false with the state unchanged. -/
theorem wait_timeout_returns_false_keeps_state_witness :
    wait_until_running ⟨fun _ _ => false, true, fun _ => ⟨0, "", "", PyObj.none⟩⟩ 0
      ⟨true, false, true⟩ [Check.port 4506] = Except.ok (false, ⟨true, false, true⟩) :=
  wait_timeout_returns_false_keeps_state _ 0 ⟨true, false, true⟩ [Check.port 4506] rfl rfl

/-- Claim C5: for a daemon whose declared check set is empty and whose
liveness flag is set, the prober declares readiness on its first pass: it
sets the connectable flag and returns True for every environment and even
with zero polling cycles of budget, hence without any port probe, peer
query or 0.5 second sleep. -/
theorem empty_check_set_immediately_ready :
    ∀ (env : ProbeEnv) (fuel cycle : Nat) (s : DaemonState), s.running = true →
      waitLoop env fuel cycle s [] =
        ProbeOutcome.finished true ⟨s.running, true, s.procAlive⟩ := by
  intro env fuel cycle s h
  unfold waitLoop
  rw [if_neg (by simp [h])]
  rfl

/-- Witness for claim C5 on a live daemon with no checks and no budget. -/
theorem empty_check_set_immediately_ready_witness :
    waitLoop ⟨fun _ _ => false, false, fun _ => ⟨0, "", "", PyObj.none⟩⟩ 0 0
      ⟨true, false, true⟩ [] = ProbeOutcome.finished true ⟨true, true, true⟩ :=
  empty_check_set_immediately_ready _ 0 0 ⟨true, false, true⟩ rfl

theorem fixtureLoopAux_yielded (b : Nat → AttemptOutcome) :
    ∀ (k attempts : Nat), 4 - attempts ≤ k →
      ∀ a, fixtureLoopAux b attempts = FixtureResult.yielded a →
        b a = AttemptOutcome.ready := by
  intro k
  induction k with
  | zero =>
      intro attempts hk a h
      unfold fixtureLoopAux at h
      rw [dif_neg (by omega)] at h
      exact FixtureResult.noConfusion h
  | succ n ih =>
      intro attempts hk a h
      by_cases ha : attempts ≤ 3
      · unfold fixtureLoopAux at h
        rw [dif_pos ha] at h
        cases hb : b (attempts + 1) with
        | ready =>
            rw [hb] at h
            injection h with h1
            rw [← h1]
            exact hb
        | notAlive =>
            rw [hb] at h
            exact ih (attempts + 1) (by omega) a h
        | notConnectable =>
            rw [hb] at h
            by_cases h3 : attempts + 1 ≥ 3
            · simp only [if_pos h3] at h
              exact FixtureResult.noConfusion h
            · simp only [if_neg h3] at h
              exact ih (attempts + 1) (by omega) a h
        | waitRaises =>
            rw [hb] at h
            by_cases h3 : attempts + 1 ≥ 3
            · simp only [if_pos h3] at h
              exact FixtureResult.noConfusion h
            · simp only [if_neg h3] at h
              exact ih (attempts + 1) (by omega) a h
      · unfold fixtureLoopAux at h
        rw [dif_neg ha] at h
        exact FixtureResult.noConfusion h

/-- Claim C3: in every reachable state of a daemon handle the readiness
flag implies the liveness flag (start sets liveness without touching
readiness, the prober sets readiness only while liveness holds, terminate
clears both); and the fixture loop yields a handle only from the branch
in which is_alive returned true and a wait confirmed readiness, so the
supervisor never yields a handle whose liveness flag is false. -/
theorem readiness_implies_liveness :
    (∀ s : DaemonState, Reachable s → s.connectable = true → s.running = true) ∧
    (∀ (b : Nat → AttemptOutcome) (a : Nat),
        daemonFixtureLoop b = FixtureResult.yielded a →
        b a = AttemptOutcome.ready) := by
  constructor
  · intro s hs
    induction hs with
    | init => intro h; exact Bool.noConfusion h
    | start hs ih => intro h; rfl
    | procExit hs ih => intro h; exact ih h
    | terminate hs ih => intro h; exact Bool.noConfusion h
    | wait hs hw ih =>
        intro h
        rcases wait_until_running_state _ _ _ _ _ _ hw with heq | ⟨hr, heq⟩
        · subst heq; exact ih h
        · subst heq; exact hr
  · intro b a h
    exact fixtureLoopAux_yielded b 4 0 (by omega) a h

/-- Witness for claim C3: a concrete reachable connectable state, and the
concrete behaviour that succeeds at the third attempt. -/
theorem readiness_implies_liveness_witness :
    (⟨true, true, true⟩ : DaemonState).running = true ∧
    (fun n => if n = 3 then AttemptOutcome.ready else AttemptOutcome.notConnectable) 3 =
      AttemptOutcome.ready := by
  constructor
  · exact readiness_implies_liveness.1 ⟨true, true, true⟩
      (@Reachable.wait ⟨fun _ _ => false, true, fun _ => ⟨0, "", "", PyObj.none⟩⟩ 0 []
        ⟨true, false, true⟩ true ⟨true, true, true⟩
        (Reachable.start Reachable.init) rfl) rfl
  · exact readiness_implies_liveness.2
      (fun n => if n = 3 then AttemptOutcome.ready else AttemptOutcome.notConnectable) 3
      (by simp [daemonFixtureLoop, fixtureLoopAux])

/-- Claim C1: the fixture retry loop is bounded at 3 attempts for
confirming running status: a daemon whose wait-until-running confirmation
fails on its first 2 attempts and succeeds on the 3rd is yielded at
attempt 3, and a daemon whose confirmation fails on all 3 attempts makes
the loop raise pytest.xfail at attempt 3, so the caller never receives a
handle. -/
theorem daemon_fixture_retry_bound :
    (∀ b : Nat → AttemptOutcome,
        b 1 = AttemptOutcome.notConnectable →
        b 2 = AttemptOutcome.notConnectable →
        b 3 = AttemptOutcome.ready →
        daemonFixtureLoop b = FixtureResult.yielded 3) ∧
    (∀ b : Nat → AttemptOutcome,
        b 1 = AttemptOutcome.notConnectable →
        b 2 = AttemptOutcome.notConnectable →
        b 3 = AttemptOutcome.notConnectable →
        daemonFixtureLoop b = FixtureResult.xfailConfirm 3) := by
  constructor <;> intro b h1 h2 h3 <;>
    simp [daemonFixtureLoop, fixtureLoopAux, h1, h2, h3]

/-- Witness for claim C1: the two concrete behaviours. -/
theorem daemon_fixture_retry_bound_witness :
    daemonFixtureLoop
        (fun n => if n = 3 then AttemptOutcome.ready else AttemptOutcome.notConnectable) =
      FixtureResult.yielded 3 ∧
    daemonFixtureLoop (fun _ => AttemptOutcome.notConnectable) =
      FixtureResult.xfailConfirm 3 :=
  ⟨daemon_fixture_retry_bound.1 _ rfl rfl rfl,
   daemon_fixture_retry_bound.2 _ rfl rfl rfl⟩

/-- Claim C7: start sets the liveness flag unconditionally; exit of the
underlying subprocess never clears it; a completed wait_until_running
call never changes it; only terminate clears it; and a state in which
is_alive is true while no subprocess is running is reachable (start
followed by subprocess exit). -/
theorem is_alive_unconditional_until_terminate :
    (∀ s : DaemonState, (DaemonState.start s).is_alive = true) ∧
    (∀ s : DaemonState, (DaemonState.procExit s).is_alive = s.is_alive) ∧
    (∀ (env : ProbeEnv) (fuel : Nat) (s : DaemonState) (pending : List Check)
        (b : Bool) (s2 : DaemonState),
        wait_until_running env fuel s pending = Except.ok (b, s2) →
        s2.is_alive = s.is_alive) ∧
    (∀ s : DaemonState, (DaemonState.terminate s).is_alive = false) ∧
    Reachable ⟨true, false, false⟩ := by
  refine ⟨fun s => rfl, fun s => rfl, ?_, fun s => rfl, ?_⟩
  · intro env fuel s pending b s2 h
    rcases wait_until_running_state env fuel s pending b s2 h with heq | ⟨hr, heq⟩
    · subst heq; rfl
    · subst heq
      simp [DaemonState.is_alive, hr]
  · exact Reachable.procExit (Reachable.start Reachable.init)

/-- Witness for claim C7: a completed wait on a live daemon with no
checks preserves the liveness flag. -/
theorem is_alive_unconditional_until_terminate_witness :
    (⟨true, true, true⟩ : DaemonState).is_alive =
      (⟨true, false, true⟩ : DaemonState).is_alive :=
  is_alive_unconditional_until_terminate.2.2.1
    ⟨fun _ _ => false, true, fun _ => ⟨0, "", "", PyObj.none⟩⟩ 0
    ⟨true, false, true⟩ [] true ⟨true, true, true⟩ rfl

/-- Claim C6 fails for the sshd daemon: SSHD overrides
get_base_script_args, so its argument vector is
[path, "-D", "-f", config_dir/sshd_config] and contains no "-c"
configuration-directory flag at all. -/
theorem sshd_args_no_config_flag_cex :
    hasArgPair "-c" "/conf"
      (daemon_proc_args DaemonClass.sshd "/usr/sbin/sshd" "/conf") = false := by
  decide

/-- Claim C6 (amended): every Salt daemon (master, minion) passes "-c"
immediately followed by its configuration directory; the sshd daemon
instead passes "-D -f config_dir/sshd_config"; and every one-shot CLI
command passes both "-c config_dir" (adjacent) and the machine-readable
output flag "--out=json". -/
theorem script_args_contract :
    ∀ (config_dir script_path : String) (callArgs : List String),
      hasArgPair "-c" config_dir
        (daemon_proc_args DaemonClass.master script_path config_dir) = true ∧
      hasArgPair "-c" config_dir
        (daemon_proc_args DaemonClass.minion script_path config_dir) = true ∧
      daemon_proc_args DaemonClass.sshd script_path config_dir =
        [script_path, "-D", "-f", config_dir ++ "/sshd_config"] ∧
      (∀ c : CliClass,
        hasArgPair "-c" config_dir
          (cli_proc_args c script_path config_dir callArgs) = true ∧
        "--out=json" ∈ cli_proc_args c script_path config_dir callArgs) := by
  intro config_dir script_path callArgs
  refine ⟨?_, ?_, rfl, ?_⟩
  · simp [daemon_proc_args, daemon_get_base_script_args, daemon_get_script_args,
      SaltScriptBase.get_base_script_args, hasArgPair]
  · simp [daemon_proc_args, daemon_get_base_script_args, daemon_get_script_args,
      SaltScriptBase.get_base_script_args, hasArgPair]
  · intro c
    cases c <;> constructor <;>
      simp [cli_proc_args, SaltCliScriptBase.get_base_script_args,
        SaltScriptBase.get_base_script_args, cli_get_script_args, hasArgPair]

theorem guardSignal_ok (r : SigResult) (h : sigSwallowed r = true) :
    guardSignal r = Except.ok () := by
  cases r with
  | ok => rfl
  | oserr e =>
      simp [sigSwallowed] at h
      simp [guardSignal, h]

theorem guardSignal_error (e : Nat) (h1 : e ≠ ESRCH) (h2 : e ≠ EACCES) :
    guardSignal (SigResult.oserr e) = Except.error e := by
  simp [guardSignal, h1, h2]

/-- Claim C8: close_terminal swallows exactly the no-such-process
(ESRCH) and not-permitted (EACCES) errnos at every escalation step: when
each executed signalling call succeeds or raises a swallowed errno the
shutdown completes normally, and an OSError with any other errno raised
by send_signal(SIGKILL), kill() or terminate() propagates to the
caller. -/
theorem close_terminal_errno_filter :
    (∀ t : TerminalBehavior,
        sigSwallowed t.sendSignalResult = true →
        sigSwallowed t.killResult = true →
        sigSwallowed t.terminateResult = true →
        close_terminal t = Except.ok ()) ∧
    (∀ (t : TerminalBehavior) (e : Nat),
        t.exitedAtEntry = false →
        t.sendSignalResult = SigResult.oserr e →
        e ≠ ESRCH → e ≠ EACCES →
        close_terminal t = Except.error e) ∧
    (∀ (t : TerminalBehavior) (e : Nat),
        t.exitedAtEntry = false → t.exitedAfterWait = false →
        sigSwallowed t.sendSignalResult = true →
        t.killResult = SigResult.oserr e →
        e ≠ ESRCH → e ≠ EACCES →
        close_terminal t = Except.error e) ∧
    (∀ (t : TerminalBehavior) (e : Nat),
        sigSwallowed t.sendSignalResult = true →
        sigSwallowed t.killResult = true →
        t.terminateResult = SigResult.oserr e →
        e ≠ ESRCH → e ≠ EACCES →
        close_terminal t = Except.error e) := by
  refine ⟨?_, ?_, ?_, ?_⟩
  · intro t h1 h2 h3
    unfold close_terminal
    by_cases he : t.exitedAtEntry = false
    · rw [if_pos he, guardSignal_ok _ h1]
      by_cases hw : (t.exitedAtEntry || t.exitedAfterWait) = false
      · rw [if_pos hw, guardSignal_ok _ h2]
        exact guardSignal_ok _ h3
      · rw [if_neg hw]
        exact guardSignal_ok _ h3
    · rw [if_neg he]
      have ht : t.exitedAtEntry = true := Bool.not_eq_false _ |>.mp he
      rw [if_neg (by simp [ht])]
      exact guardSignal_ok _ h3
  · intro t e he hs h1 h2
    unfold close_terminal
    rw [if_pos he, hs, guardSignal_error e h1 h2]
  · intro t e he hw hs hk h1 h2
    unfold close_terminal
    rw [if_pos he, guardSignal_ok _ hs,
      if_pos (show (t.exitedAtEntry || t.exitedAfterWait) = false by rw [he, hw]; rfl),
      hk, guardSignal_error e h1 h2]
  · intro t e hs hk ht h1 h2
    unfold close_terminal
    by_cases he : t.exitedAtEntry = false
    · rw [if_pos he, guardSignal_ok _ hs]
      by_cases hw : (t.exitedAtEntry || t.exitedAfterWait) = false
      · rw [if_pos hw, guardSignal_ok _ hk, ht, guardSignal_error e h1 h2]
      · rw [if_neg hw, ht, guardSignal_error e h1 h2]
    · rw [if_neg he]
      have hte : t.exitedAtEntry = true := Bool.not_eq_false _ |>.mp he
      rw [if_neg (by simp [hte]), ht, guardSignal_error e h1 h2]

/-- Witness for claim C8: send_signal raising errno 5 (EIO) on a live
subprocess propagates out of close_terminal. -/
theorem close_terminal_errno_filter_witness :
    close_terminal ⟨false, SigResult.oserr 5, false, SigResult.ok, SigResult.ok⟩ =
      Except.error 5 :=
  close_terminal_errno_filter.2.1
    ⟨false, SigResult.oserr 5, false, SigResult.ok, SigResult.ok⟩ 5
    rfl rfl (by decide) (by decide)

/-- Claim C9: a manage.joined peers query that exits non-zero or returns
no parsed data leaves every PeerName check in the pending set, and the
pass over the pending checks completes normally (an ok result, never an
error), so the check is simply retried on the next polling cycle. -/
theorem peer_query_failure_retried :
    ∀ (env : ProbeEnv) (cycle : Nat) (minionId : String) (pending : List Check),
      env.hasSaltRun = true →
      ((env.peersJoined cycle).exitcode ≠ 0 ∨
        pyTruthy (env.peersJoined cycle).json = false) →
      ∃ pending2, runChecks env cycle pending = Except.ok pending2 ∧
        (Check.peer minionId ∈ pending → Check.peer minionId ∈ pending2) := by
  intro env cycle minionId pending hrun hfail
  have hpeer : ∀ name, checkSatisfied env cycle (Check.peer name) = Except.ok false := by
    intro name
    have hb : ((env.peersJoined cycle).exitcode == 0 &&
        pyTruthy (env.peersJoined cycle).json &&
        pyIn (PyObj.str name) (env.peersJoined cycle).json) = false := by
      rcases hfail with hf | hf
      · simp [beq_iff_eq, hf]
      · simp [hf]
    simp [checkSatisfied, hrun, hb]
  induction pending with
  | nil => exact ⟨[], rfl, fun hm => absurd hm (by simp)⟩
  | cons c rest ih =>
      obtain ⟨p2, hp2, hmem⟩ := ih
      cases c with
      | port p =>
          refine ⟨if env.portOpen cycle p then p2 else Check.port p :: p2, ?_, ?_⟩
          · simp [runChecks, checkSatisfied, hp2]
          · intro hm
            have hrest : Check.peer minionId ∈ rest := by
              rcases List.mem_cons.mp hm with he | hr
              · exact absurd he (by simp)
              · exact hr
            by_cases ho : env.portOpen cycle p
            · rw [if_pos ho]
              exact hmem hrest
            · rw [if_neg ho]
              exact List.mem_cons_of_mem _ (hmem hrest)
      | peer name =>
          refine ⟨Check.peer name :: p2, ?_, ?_⟩
          · simp [runChecks, hpeer name, hp2]
          · intro hm
            rcases List.mem_cons.mp hm with he | hr
            · rw [he]
              exact List.mem_cons_self _ _
            · exact List.mem_cons_of_mem _ (hmem hr)

/-- Witness for claim C9: a single peer check against a query that exits
with code 1 stays pending and the pass succeeds. -/
theorem peer_query_failure_retried_witness :
    ∃ pending2,
      runChecks ⟨fun _ _ => false, true, fun _ => ⟨1, "", "", PyObj.none⟩⟩ 0
          [Check.peer "m1"] = Except.ok pending2 ∧
      (Check.peer "m1" ∈ [Check.peer "m1"] → Check.peer "m1" ∈ pending2) :=
  peer_query_failure_retried _ 0 "m1" [Check.peer "m1"] rfl (Or.inl (by decide))

/-- Claim C10: in terminate_child_processes, a descendant that already
exited (its handling raises NoSuchProcess) is silently skipped: it is
dropped from the remaining-children list and handling continues with the
other descendants, yielding exactly the result obtained had it not been
enumerated; when no descendant raises AccessDenied the loop completes
normally, with precisely the successfully handled descendants remaining
for the final bulk wait; and an AccessDenied while handling a descendant
propagates to the caller. -/
theorem reap_descendants_skips_gone :
    (∀ (pre : List (Nat × ChildOutcome)) (pid : Nat)
        (rest : List (Nat × ChildOutcome)),
        reapLoop (pre ++ (pid, ChildOutcome.gone) :: rest) = reapLoop (pre ++ rest)) ∧
    (∀ children : List (Nat × ChildOutcome),
        (∀ x ∈ children, x.2 ≠ ChildOutcome.denied) →
        reapLoop children =
          Except.ok
            ((children.filter (fun x => x.2 == ChildOutcome.handled)).map Prod.fst)) ∧
    (∀ (pre : List (Nat × ChildOutcome)) (pid : Nat)
        (rest : List (Nat × ChildOutcome)),
        (∀ x ∈ pre, x.2 ≠ ChildOutcome.denied) →
        reapLoop (pre ++ (pid, ChildOutcome.denied) :: rest) = Except.error ()) := by
  refine ⟨?_, ?_, ?_⟩
  · intro pre pid rest
    induction pre with
    | nil => rfl
    | cons q pre ih =>
        obtain ⟨qid, o⟩ := q
        cases o with
        | handled => simp [reapLoop, ih]
        | gone => simp [reapLoop, ih]
        | denied => simp [reapLoop]
  · intro children hnd
    induction children with
    | nil => rfl
    | cons q rest ih =>
        obtain ⟨qid, o⟩ := q
        have hrest := ih (fun x hx => hnd x (List.mem_cons_of_mem _ hx))
        cases o with
        | handled => simp [reapLoop, hrest, List.filter_cons]
        | gone => simp [reapLoop, hrest, List.filter_cons]
        | denied =>
            exact absurd rfl (hnd (qid, ChildOutcome.denied) (List.mem_cons_self _ _))
  · intro pre pid rest hnd
    induction pre with
    | nil => rfl
    | cons q pre ih =>
        obtain ⟨qid, o⟩ := q
        have hpre := ih (fun x hx => hnd x (List.mem_cons_of_mem _ hx))
        cases o with
        | handled => simp [reapLoop, hpre]
        | gone => simpa [reapLoop] using hpre
        | denied =>
            exact absurd rfl (hnd (qid, ChildOutcome.denied) (List.mem_cons_self _ _))

/-- Witness for claim C10: an AccessDenied on the second of three
descendants propagates. -/
theorem reap_descendants_skips_gone_witness :
    reapLoop [(1, ChildOutcome.handled), (2, ChildOutcome.denied),
      (3, ChildOutcome.handled)] = Except.error () :=
  reap_descendants_skips_gone.2.2 [(1, ChildOutcome.handled)] 2
    [(3, ChildOutcome.handled)] (by decide)
